import Mathlib

/-!
Verification of the `Stock` forecasting wrapper class from the stock-prices
notebook (the `SeriesModel` component of the specification).

The embedding below translates the `Stock` class faithfully:

* rows of the pandas dataframe become `List ℚ` (one rational per numeric field);
* `sklearn.preprocessing.MinMaxScaler` becomes `Scaler` (per-column data
  minimum and maximum, transform `(x - min) / (max - min)` with sklearn's
  zero-range guard, and its requirement of at least one sample on `fit`);
* the mutable attribute bag of the class becomes the structure `Stock`, where
  `none` models an attribute still holding its constructor placeholder
  (`np.array` / `MinMaxScaler` / bare `keras.Model()`, i.e. a class or
  function object instead of data);
* each method becomes a function `Stock → Except PyErr Quantities`, where
  `PyErr` labels the Python exception the method run raises, and
  the constructors named after the specification's error taxonomy
  (`insufficientDataError`, `configurationError`, `sequenceError`,
  `notTrainedError`) exist only so that claims phrased in the
  specification's vocabulary can be stated; no method of the source ever
  produces them;
* the Keras LSTM engine is an external collaborator: `fit_LSTM` takes the
  fitted predictor as an explicit parameter `EngineFn` (one normalized
  prediction per (window, indicator) pair), and a bare untrained
  `keras.Model()` placeholder failing inside the engine is labelled
  `engineError`.
-/

namespace StockForecast

/-- Label for the Python exception with which a method run terminates.
The first five constructors model exceptions the source code can actually
raise (via sklearn, numpy attribute access, string concatenation, the
`assert` statement, or the external Keras engine).  The last four
constructors are the specification's error taxonomy; they are never
produced by the embedded code and exist only to state the claims. -/
inductive PyErr where
  | valueError
  | attributeError
  | typeError
  | assertionError
  | engineError
  | insufficientDataError
  | configurationError
  | sequenceError
  | notTrainedError
deriving DecidableEq, Repr

/-- One dated record of the raw series: the fixed numeric fields of a row
(open, high, low, close, volume in the source data). -/
abbrev Row := List ℚ

/-- A windowed sample: `numSeq` consecutive normalized rows. -/
abbrev Window := List Row

/-- Minimum of a list of rationals, as `np.min` / sklearn's data minimum
computes it on a nonempty list (the empty case never feeds a fitted scaler). -/
def listMin : List ℚ → ℚ
  | [] => 0
  | h :: t => t.foldl min h

/-- Maximum of a list of rationals, as `np.max` / sklearn's data maximum
computes it on a nonempty list. -/
def listMax : List ℚ → ℚ
  | [] => 0
  | h :: t => t.foldl max h

/-- Column `j` of a row matrix, with missing entries read as `0` (the data
is rectangular in every reachable state, so the default is never used). -/
def colVals (x : List Row) (j : Nat) : List ℚ :=
  x.map (fun r => r.getD j 0)

/-- Number of features of a row matrix (length of the first row). -/
def nFeatures (x : List Row) : Nat := (x.headD []).length

/-- Mean of a list of rationals, as `np.mean` computes it on a nonempty list. -/
def mean (l : List ℚ) : ℚ := l.sum / l.length

/-- sklearn's `_handle_zeros_in_scale`: a zero data range is replaced by 1
so that constant columns transform to 0 instead of dividing by zero. -/
def hz (d : ℚ) : ℚ := if d = 0 then 1 else d

/-- A fitted `MinMaxScaler` with `feature_range=(0,1)`: the per-column data
minima and maxima observed at fit time. -/
structure Scaler where
  dataMin : List ℚ
  dataMax : List ℚ
deriving DecidableEq, Repr

/-- `MinMaxScaler.fit` on a row matrix: records the per-column minima and
maxima.  sklearn's `check_array` raises `ValueError` when the input has
zero samples. -/
def Scaler.fit (x : List Row) : Except PyErr Scaler :=
  if x.isEmpty then .error .valueError
  else .ok ⟨(List.range (nFeatures x)).map (fun j => listMin (colVals x j)),
            (List.range (nFeatures x)).map (fun j => listMax (colVals x j))⟩

/-- `MinMaxScaler.fit` on a single-column matrix built from a list of values,
as the source does for `nextDayVals` and for the indicator column. -/
def Scaler.fit1 (l : List ℚ) : Except PyErr Scaler :=
  Scaler.fit (l.map (fun v => [v]))

/-- Transform of one row: per column, `(x - min) / (max - min)` with the
zero-range guard. -/
def Scaler.transformRow (sc : Scaler) (r : Row) : Row :=
  (List.range sc.dataMin.length).map (fun j =>
    (r.getD j 0 - sc.dataMin.getD j 0) / hz (sc.dataMax.getD j 0 - sc.dataMin.getD j 0))

/-- `MinMaxScaler.transform` on a row matrix. -/
def Scaler.transform (sc : Scaler) (x : List Row) : List Row :=
  x.map sc.transformRow

/-- Transform of a single-column scaler applied to a list of values. -/
def Scaler.transform1 (sc : Scaler) (l : List ℚ) : List ℚ :=
  l.map (fun v => (v - sc.dataMin.getD 0 0) / hz (sc.dataMax.getD 0 0 - sc.dataMin.getD 0 0))

/-- `MinMaxScaler.inverse_transform` of a single-column scaler on one value:
`v * (max - min) + min` with the zero-range guard. -/
def Scaler.invVal (sc : Scaler) (v : ℚ) : ℚ :=
  v * hz (sc.dataMax.getD 0 0 - sc.dataMin.getD 0 0) + sc.dataMin.getD 0 0

/-- Python `int()` applied to a nonnegative-or-negative rational: truncation
toward zero, as in `int(self.normDataHistory.shape[0] * self.testProp)`. -/
def pyInt (q : ℚ) : Int := if 0 ≤ q then ⌊q⌋ else ⌈q⌉

/-- Python slice `l[:k]` for a possibly negative `k`: a negative index counts
from the end and clamps at 0. -/
def pyTake (l : List α) (k : Int) : List α :=
  if 0 ≤ k then l.take k.toNat else l.take (l.length - (-k).toNat)

/-- Python slice `l[k:]` for a possibly negative `k`. -/
def pyDrop (l : List α) (k : Int) : List α :=
  if 0 ≤ k then l.drop k.toNat else l.drop (l.length - (-k).toNat)

/-- Python slice `l[i : i + w]` for nonnegative bounds. -/
def pySlice (l : List α) (i w : Nat) : List α := (l.drop i).take w

/-- Entry `i` of column 0 of a row matrix: `x[:,0][i]` (indices are in range
in every use, so the defaults are never read). -/
def col0 (x : List Row) (i : Nat) : ℚ := (x.getD i []).getD 0 0

/-- The external sequence-learning engine, an opaque collaborator: one
normalized point prediction per (window, indicator) input pair. -/
abbrev EngineFn := Window → ℚ → ℚ

/-- The `Stock` class attribute bag.  `none` models an attribute that still
holds its constructor placeholder (a class or function object, not data). -/
structure Stock where
  data : List Row
  testProp : ℚ := 1/5
  numLag : Nat := 1
  numSeq : Nat := 1
  numEpochs : Nat := 1
  numNeurons : Nat := 1
  batchSize : Nat := 32
  scaler : Option Scaler := none
  normalizedData : Option (List Row) := none
  normDataHistory : Option (List Window) := none
  nextDayVals : Option (List ℚ) := none
  nextDayValsNorm : Option (List ℚ) := none
  nextDayVals_test : Option (List ℚ) := none
  train_samplesX : Option (List Window) := none
  test_samplesX : Option (List Window) := none
  train_samplesY : Option (List ℚ) := none
  test_samplesY : Option (List ℚ) := none
  model : Option EngineFn := none
  indicators : Option (List ℚ) := none
  indicatorsNorm : Option (List ℚ) := none
  indicatorScaler : Option Scaler := none
  indicators_train : Option (List ℚ) := none
  indicators_test : Option (List ℚ) := none

/-- The constructor `Stock.__init__`: stores the loaded (null-dropped)
dataframe, leaves every derived attribute a placeholder, and sets the
default global parameters (`testProp = .2`, `numSeq = 1`, ...). -/
def Stock.init (data : List Row) : Stock := { data := data }

/-- `Stock.set_globals`: overwrites the five tunable parameters, with no
validation of any of them. -/
def Stock.set_globals (st : Stock) (testProp : ℚ)
    (batchSize numSeq numNeurons numEpochs : Nat) : Stock :=
  { st with testProp := testProp, batchSize := batchSize, numSeq := numSeq,
            numNeurons := numNeurons, numEpochs := numEpochs }

/-- `Stock.prepare_samples`: fits a min-max scaler on the entire dataframe
and normalizes it, slides a window of length `numSeq` with stride 1 to
build `normDataHistory`, pairs window `i` with the normalized column-0
value at index `i + numSeq` (`nextDayValsNorm`) and with the raw column-0
value at index `i + numSeq` (`nextDayVals`), fits `yNormalizer` on the raw
targets and stores it in `self.scaler`, then asserts the two sample counts
agree.  A run on an empty dataframe fails inside the first `fit`; a run
producing zero samples fails inside `yNormalizer.fit` — both with sklearn's
`ValueError`. -/
def Stock.prepare_samples (st : Stock) : Except PyErr Stock :=
  match Scaler.fit st.data with
  | .error e => .error e
  | .ok sc0 =>
    let nd := sc0.transform st.data
    let hist := (List.range (nd.length - st.numSeq)).map (fun i => pySlice nd i st.numSeq)
    let nyn := (List.range (nd.length - st.numSeq)).map (fun i => col0 nd (i + st.numSeq))
    let ny := (List.range (st.data.length - st.numSeq)).map (fun i => col0 st.data (i + st.numSeq))
    match Scaler.fit1 ny with
    | .error e => .error e
    | .ok ySc =>
      if hist.length = nyn.length then
        .ok { st with scaler := some ySc, normalizedData := some nd,
                      normDataHistory := some hist, nextDayValsNorm := some nyn,
                      nextDayVals := some ny }
      else .error .assertionError

/-- `Stock.prepare_indicators`: one simple-moving-average indicator per
windowed sample (the mean of column 4 of the window), then an independent
min-max scaler fitted over all indicator values.  Iterating over the
`np.array` placeholder (when `prepare_samples` has not run) raises
`TypeError`. -/
def Stock.prepare_indicators (st : Stock) : Except PyErr Stock :=
  match st.normDataHistory with
  | none => .error .typeError
  | some hist =>
    let ind := hist.map (fun day => mean (colVals day 4))
    match Scaler.fit1 ind with
    | .error e => .error e
    | .ok isc =>
      .ok { st with indicators := some ind, indicatorScaler := some isc,
                    indicatorsNorm := some (isc.transform1 ind) }

/-- The split index of `Stock.split_data` and `Stock.split_indicator_data`:
`N - int(N * testProp)`. -/
def splitPoint (n : Nat) (p : ℚ) : Int := (n : Int) - pyInt ((n : ℚ) * p)

/-- `Stock.split_data`: chronological train/test split of the windowed
samples, their normalized targets, and their raw targets at index
`split = N - int(N * testProp)`, with Python slice semantics and no
validation of `testProp`.  Reading `.shape` of the `np.array` placeholder
(when `prepare_samples` has not run) raises `AttributeError`. -/
def Stock.split_data (st : Stock) : Except PyErr Stock :=
  match st.normDataHistory with
  | none => .error .attributeError
  | some hist =>
    match st.nextDayValsNorm, st.nextDayVals with
    | some nyn, some ny =>
      let split := splitPoint hist.length st.testProp
      .ok { st with train_samplesX := some (pyTake hist split),
                    test_samplesX := some (pyDrop hist split),
                    train_samplesY := some (pyTake nyn split),
                    test_samplesY := some (pyDrop nyn split),
                    nextDayVals_test := some (pyDrop ny split) }
    | _, _ => .error .typeError

/-- `Stock.split_indicator_data`: same chronological split applied to the
normalized indicator values, recomputing the split index from their count. -/
def Stock.split_indicator_data (st : Stock) : Except PyErr Stock :=
  match st.indicatorsNorm with
  | none => .error .attributeError
  | some ind =>
    let split := splitPoint ind.length st.testProp
    .ok { st with indicators_train := some (pyTake ind split),
                  indicators_test := some (pyDrop ind split) }

/-- `Stock.fit_LSTM`: builds the two-branch Keras model and trains it on the
train partitions.  The network internals are the opaque external engine, so
the fitted predictor is supplied as the parameter `engine`.  Reading
`self.indicators.shape` of the placeholder raises `AttributeError`; handing
placeholder train arrays to Keras fails inside the engine. -/
def Stock.fit_LSTM (engine : EngineFn) (st : Stock) : Except PyErr Stock :=
  match st.indicators with
  | none => .error .attributeError
  | some _ =>
    match st.train_samplesX, st.indicators_train, st.train_samplesY with
    | some _, some _, some _ => .ok { st with model := some engine }
    | _, _, _ => .error .engineError

/-- `Stock.evaluate_forecasts`: predicts on the test partition, inverse
transforms the predictions with `self.scaler` (the `yNormalizer` fitted in
`prepare_samples`), computes `MSE` and the range-scaled `MSE_scaled` of the
raw test targets — and then executes `print("MSE Score: " + MSE_scaled)`,
which concatenates a string with a numpy float and therefore raises
`TypeError`; the `r2_score` computation, the plot and the `return` are
unreachable, so no run ever produces a value.  A bare `keras.Model()`
placeholder fails inside the engine before that; an empty prediction array
fails sklearn's `inverse_transform` check and an empty test partition fails
`np.max`, both with `ValueError`. -/
def Stock.evaluate_forecasts (st : Stock) : Except PyErr Unit :=
  match st.model with
  | none => .error .engineError
  | some f =>
    match st.test_samplesX, st.indicators_test with
    | some tX, some tI =>
      let preds := (tX.zip tI).map (fun p => f p.1 p.2)
      if preds.isEmpty then .error .valueError
      else
        match st.scaler with
        | none => .error .typeError
        | some sc =>
          let prices := preds.map sc.invVal
          match st.nextDayVals_test with
          | none => .error .attributeError
          | some actual =>
            let _MSE := mean ((actual.zip prices).map (fun p => (p.1 - p.2) ^ 2))
            if actual.isEmpty then .error .valueError
            else .error .typeError
    | _, _ => .error .engineError

end StockForecast

/-! ## General helper lemmas -/

namespace StockForecast

theorem rangeMap_getD {α : Type} (f : Nat → α) (n i : Nat) (d : α) (h : i < n) :
    ((List.range n).map f).getD i d = f i := by
  rw [List.getD_eq_getElem?_getD, List.getElem?_map, List.getElem?_range h]
  rfl

theorem isEmpty_false_of_len_pos {α : Type} (l : List α) (h : 0 < l.length) :
    l.isEmpty = false := by
  cases l <;> simp_all

theorem pyTake_length_congr {α β : Type} (l₁ : List α) (l₂ : List β) (k : Int)
    (h : l₁.length = l₂.length) : (pyTake l₁ k).length = (pyTake l₂ k).length := by
  unfold pyTake
  split <;> simp [h]

theorem pyDrop_length_congr {α β : Type} (l₁ : List α) (l₂ : List β) (k : Int)
    (h : l₁.length = l₂.length) : (pyDrop l₁ k).length = (pyDrop l₂ k).length := by
  unfold pyDrop
  split <;> simp [h]

theorem pyTake_append_pyDrop {α : Type} (l : List α) (k : Int) :
    pyTake l k ++ pyDrop l k = l := by
  unfold pyTake pyDrop
  split <;> exact List.take_append_drop ..

/-! ## Concrete runs of the pipeline

`demoStock` is a six-day toy series with five identical numeric fields per
day, run with `set_globals(.5, 32, 1, 1, 1)` exactly as the notebook runs
its three instruments; `demoS1`–`demoS5` are the states after each
lifecycle step, with `demoEngine` standing in for the fitted Keras model. -/

def demoData : List Row := (List.range 6).map (fun i => List.replicate 5 (i : ℚ))

def demoStock : Stock := (Stock.init demoData).set_globals (1/2) 32 1 1 1

/-- Extract the state of a successful step (the error default is never used
at the points where this is applied). -/
def orInit : Except PyErr Stock → Stock
  | .ok s => s
  | .error _ => Stock.init []

def demoS1 : Stock := orInit demoStock.prepare_samples

def demoS2 : Stock := orInit demoS1.prepare_indicators

def demoS3 : Stock := orInit demoS2.split_data

def demoS4 : Stock := orInit demoS3.split_indicator_data

def demoEngine : EngineFn := fun _ _ => 1/2

def demoS5 : Stock := orInit (Stock.fit_LSTM demoEngine demoS4)

def demoHist : List Window := demoS2.normDataHistory.getD []

def demoNyn : List ℚ := demoS2.nextDayValsNorm.getD []

def demoNy : List ℚ := demoS2.nextDayVals.getD []

end StockForecast

/-! ## C3 — behaviour on a series no longer than the window -/

namespace StockForecast

/-- C3 (amended): for every raw series whose length is at most the configured
window length, `prepare_samples` produces zero windowed samples and fails with
sklearn's `ValueError` (raised by `fit` on a zero-sample array — by the first
`fit_transform` when the series is empty, otherwise by `yNormalizer.fit` on
the empty target array); the source defines no `InsufficientDataError`. -/
theorem short_series_value_error (st : Stock) (h : st.data.length ≤ st.numSeq) :
    st.prepare_samples = .error PyErr.valueError := by
  have hzero : st.data.length - st.numSeq = 0 := Nat.sub_eq_zero_of_le h
  unfold Stock.prepare_samples
  rw [hzero]
  by_cases hemp : st.data.isEmpty = true
  · simp [Scaler.fit, hemp]
  · rw [Bool.not_eq_true] at hemp
    simp [Scaler.fit, hemp, Scaler.fit1]

def shortStock : Stock := Stock.init [[5]]

/-- C3 counterexample: on the one-row series `[[5]]` with the default window
length 1, `prepare_samples` raises `ValueError`, not the
`InsufficientDataError` promised by the specification. -/
theorem short_series_cex :
    shortStock.data.length ≤ shortStock.numSeq ∧
    shortStock.prepare_samples = .error PyErr.valueError ∧
    shortStock.prepare_samples ≠ .error PyErr.insufficientDataError := by
  refine ⟨by with_unfolding_all decide, by with_unfolding_all rfl, ?_⟩
  intro hcontra
  rw [show shortStock.prepare_samples = .error PyErr.valueError from by
    with_unfolding_all rfl] at hcontra
  simp at hcontra

def shortStock2 : Stock := (Stock.init [[1], [2]]).set_globals (1/5) 32 2 1 1

/-- C3 witness: the amended theorem applied to a two-row series with window
length 2. -/
theorem short_series_witness : shortStock2.prepare_samples = .error PyErr.valueError :=
  short_series_value_error shortStock2 (by with_unfolding_all decide)

end StockForecast

/-! ## C4 — out-of-order lifecycle calls -/

namespace StockForecast

/-- C4 (amended): lifecycle operations invoked out of order do fail, but with
low-level Python exceptions, not with errors naming the missing precondition:
`split_data` before `prepare_samples` reads `.shape` of the `np.array`
placeholder and raises `AttributeError` (not `SequenceError`), and
`evaluate_forecasts` before `fit_LSTM` calls `predict` on the bare
`keras.Model()` placeholder and fails inside the external engine (not with
`NotTrainedError`); the source defines neither error class. -/
theorem out_of_order_python_errors (st : Stock)
    (h1 : st.normDataHistory = none) (h2 : st.model = none) :
    st.split_data = .error PyErr.attributeError ∧
    st.evaluate_forecasts = .error PyErr.engineError ∧
    st.split_data ≠ .error PyErr.sequenceError ∧
    st.evaluate_forecasts ≠ .error PyErr.notTrainedError := by
  unfold Stock.split_data Stock.evaluate_forecasts
  rw [h1, h2]
  exact ⟨rfl, rfl, by simp, by simp⟩

def freshStock : Stock := Stock.init [[1, 1, 1, 1, 1], [2, 2, 2, 2, 2]]

/-- C4 counterexample: on a freshly constructed instance, `split_data` raises
`AttributeError`, not `SequenceError`; and on `demoS4` (prepared, indicators
built, both splits done, training skipped) `evaluate_forecasts` fails inside
the engine, not with `NotTrainedError`. -/
theorem out_of_order_cex :
    freshStock.split_data = .error PyErr.attributeError ∧
    freshStock.split_data ≠ .error PyErr.sequenceError ∧
    demoS4.model = none ∧
    demoS4.evaluate_forecasts = .error PyErr.engineError ∧
    demoS4.evaluate_forecasts ≠ .error PyErr.notTrainedError := by
  refine ⟨by with_unfolding_all rfl, ?_, by with_unfolding_all rfl,
          by with_unfolding_all rfl, ?_⟩
  · intro hcontra
    rw [show freshStock.split_data = .error PyErr.attributeError from by
      with_unfolding_all rfl] at hcontra
    simp at hcontra
  · intro hcontra
    rw [show demoS4.evaluate_forecasts = .error PyErr.engineError from by
      with_unfolding_all rfl] at hcontra
    simp at hcontra

/-- C4 witness: the amended theorem applied to a fresh one-row instance. -/
theorem out_of_order_witness :
    (Stock.init [[3]]).split_data = .error PyErr.attributeError ∧
    (Stock.init [[3]]).evaluate_forecasts = .error PyErr.engineError ∧
    (Stock.init [[3]]).split_data ≠ .error PyErr.sequenceError ∧
    (Stock.init [[3]]).evaluate_forecasts ≠ .error PyErr.notTrainedError :=
  out_of_order_python_errors (Stock.init [[3]]) rfl rfl

end StockForecast

/-! ## C5 — no validation of the test proportion -/

namespace StockForecast

/-- C5 (amended): neither `set_globals` nor `split_data` validates
`testProp`: on any state in which `prepare_samples` has run, `split_data`
succeeds for every test proportion — including proportions outside (0,1) and
proportions yielding an empty train or test partition — and in particular
never raises `ConfigurationError`; out-of-range proportions silently produce
degenerate partitions through Python slice semantics. -/
theorem split_data_no_validation (st : Stock) (hist : List Window)
    (nyn ny : List ℚ) (hh : st.normDataHistory = some hist)
    (hn : st.nextDayValsNorm = some nyn) (hv : st.nextDayVals = some ny) :
    (∃ st', st.split_data = .ok st') ∧ ∀ e, st.split_data ≠ .error e := by
  unfold Stock.split_data
  rw [hh, hn, hv]
  exact ⟨⟨_, rfl⟩, fun e h => by simp at h⟩

def badPropStock : Stock :=
  { data := [[1], [2], [3]], testProp := 2,
    normDataHistory := some [[[0]], [[1/2]]],
    nextDayValsNorm := some [1/2, 1], nextDayVals := some [2, 3] }

/-- C5 counterexample: with `testProp = 2` (outside (0,1)) on a prepared
two-sample state, `split_data` succeeds — it does not raise
`ConfigurationError` — and silently produces an empty train partition. -/
theorem split_no_config_error_cex :
    (¬ (0 < badPropStock.testProp ∧ badPropStock.testProp < 1)) ∧
    badPropStock.split_data = .ok (orInit badPropStock.split_data) ∧
    (orInit badPropStock.split_data).train_samplesX = some [] ∧
    badPropStock.split_data ≠ .error PyErr.configurationError := by
  refine ⟨by with_unfolding_all decide, by with_unfolding_all rfl,
          by with_unfolding_all rfl, ?_⟩
  intro hcontra
  rw [show badPropStock.split_data = .ok (orInit badPropStock.split_data) from by
    with_unfolding_all rfl] at hcontra
  simp at hcontra

def negPropStock : Stock :=
  { data := [[1], [2]], testProp := -(1/2),
    normDataHistory := some [[[0]]],
    nextDayValsNorm := some [1], nextDayVals := some [2] }

/-- C5 witness: the amended theorem applied to a prepared state whose test
proportion is negative. -/
theorem split_no_validation_witness :
    (∃ st', negPropStock.split_data = .ok st') ∧
    ∀ e, negPropStock.split_data ≠ .error e :=
  split_data_no_validation negPropStock [[[0]]] [1] [2] rfl rfl rfl

end StockForecast

/-! ## C1 — sizes of the chronological train/test split -/

namespace StockForecast

/-- C1 (amended): on any state in which `prepare_samples` has run, for a test
proportion `p ∈ [0,1]` over `M` windowed samples, `split_data` partitions the
samples chronologically with no shuffling into a leading train partition of
size `M - floor(M*p)` and a trailing test partition of size `floor(M*p)`
(the source computes the split index as `M - int(M * testProp)`, not as
`floor(M*(1-p))`); train ++ test reconstructs the sample sequence exactly. -/
theorem split_data_partition_sizes (st : Stock) (hist : List Window)
    (nyn ny : List ℚ) (hh : st.normDataHistory = some hist)
    (hn : st.nextDayValsNorm = some nyn) (hv : st.nextDayVals = some ny)
    (hp0 : 0 ≤ st.testProp) (hp1 : st.testProp ≤ 1) :
    ∃ st', st.split_data = .ok st' ∧
      ∃ trX teX, st'.train_samplesX = some trX ∧ st'.test_samplesX = some teX ∧
        trX.length = hist.length - (⌊(hist.length : ℚ) * st.testProp⌋).toNat ∧
        teX.length = (⌊(hist.length : ℚ) * st.testProp⌋).toNat ∧
        trX ++ teX = hist := by
  have hq0 : 0 ≤ (hist.length : ℚ) * st.testProp :=
    mul_nonneg (by exact_mod_cast Nat.zero_le _) hp0
  have hfl0 : 0 ≤ ⌊(hist.length : ℚ) * st.testProp⌋ := Int.floor_nonneg.mpr hq0
  have hflN : ⌊(hist.length : ℚ) * st.testProp⌋ ≤ (hist.length : Int) := by
    have hqN : (hist.length : ℚ) * st.testProp ≤ (hist.length : ℚ) :=
      mul_le_of_le_one_right (by exact_mod_cast Nat.zero_le _) hp1
    have := le_trans (Int.floor_le ((hist.length : ℚ) * st.testProp)) hqN
    exact_mod_cast le_trans (Int.le_floor.mpr this) (le_of_eq (Int.floor_natCast _))
  have hsp : splitPoint hist.length st.testProp =
      (hist.length : Int) - ⌊(hist.length : ℚ) * st.testProp⌋ := by
    unfold splitPoint pyInt
    rw [if_pos hq0]
  have hsp0 : 0 ≤ splitPoint hist.length st.testProp := by rw [hsp]; omega
  unfold Stock.split_data
  rw [hh, hn, hv]
  refine ⟨_, rfl, _, _, rfl, rfl, ?_, ?_, pyTake_append_pyDrop hist _⟩
  · unfold pyTake
    rw [if_pos hsp0, List.length_take, hsp]
    omega
  · unfold pyDrop
    rw [if_pos hsp0, List.length_drop, hsp]
    omega

/-- C1 counterexample: the demo run has `testProp = 1/2` and `M = 5` windowed
samples; the code's train partition has 3 samples, while the claimed size
`floor(M * (1 - p)) = floor(5 * 1/2)` is 2. -/
theorem split_sizes_claim_false_at_half :
    demoStock.testProp = 1/2 ∧
    demoS2.normDataHistory.map List.length = some 5 ∧
    demoS3.train_samplesX.map List.length = some 3 ∧
    (⌊(5 : ℚ) * (1 - 1/2)⌋).toNat = 2 ∧ 3 ≠ 2 := by
  refine ⟨by with_unfolding_all rfl, by with_unfolding_all rfl,
          by with_unfolding_all rfl, by with_unfolding_all decide, by decide⟩

/-- C1 witness: the amended theorem applied to the demo state after
`prepare_samples` and `prepare_indicators` (5 samples, test proportion 1/2). -/
theorem split_sizes_witness :
    ∃ st', demoS2.split_data = .ok st' ∧
      ∃ trX teX, st'.train_samplesX = some trX ∧ st'.test_samplesX = some teX ∧
        trX.length = demoHist.length - (⌊(demoHist.length : ℚ) * demoS2.testProp⌋).toNat ∧
        teX.length = (⌊(demoHist.length : ℚ) * demoS2.testProp⌋).toNat ∧
        trX ++ teX = demoHist :=
  split_data_partition_sizes demoS2 demoHist demoNyn demoNy
    (by with_unfolding_all rfl) (by with_unfolding_all rfl) (by with_unfolding_all rfl)
    (by with_unfolding_all decide) (by with_unfolding_all decide)

end StockForecast

/-! ## Structure of a successful `prepare_samples` run -/

namespace StockForecast

theorem fit_ok (x : List Row) (h : x.isEmpty = false) :
    Scaler.fit x =
      .ok ⟨(List.range (nFeatures x)).map (fun j => listMin (colVals x j)),
           (List.range (nFeatures x)).map (fun j => listMax (colVals x j))⟩ := by
  unfold Scaler.fit
  rw [h]
  rfl

theorem fit1_ok (l : List ℚ) (h : l ≠ []) :
    Scaler.fit1 l = .ok ⟨[listMin l], [listMax l]⟩ := by
  cases l with
  | nil => exact absurd rfl h
  | cons a t =>
    have hcv : colVals ([a] :: List.map (fun v => [v]) t) 0 = a :: t := by
      simp [colVals, List.map_map, Function.comp_def]
    unfold Scaler.fit1
    rw [fit_ok ((a :: t).map (fun v => [v])) rfl]
    have hnf : nFeatures ((a :: t).map (fun v => [v])) = 1 := rfl
    rw [hnf]
    rw [show List.range 1 = [0] from rfl]
    simp only [List.map_cons, List.map_nil]
    rw [hcv]

theorem transform_length (sc : Scaler) (x : List Row) :
    (sc.transform x).length = x.length := by
  simp [Scaler.transform]

theorem prepare_samples_ok (st : Stock) (h1 : st.data.isEmpty = false)
    (h2 : st.numSeq < st.data.length) :
    ∃ sc0 ySc, Scaler.fit st.data = .ok sc0 ∧
      Scaler.fit1 ((List.range (st.data.length - st.numSeq)).map
        (fun i => col0 st.data (i + st.numSeq))) = .ok ySc ∧
      st.prepare_samples = .ok { st with
        scaler := some ySc,
        normalizedData := some (sc0.transform st.data),
        normDataHistory := some ((List.range (st.data.length - st.numSeq)).map
          (fun i => pySlice (sc0.transform st.data) i st.numSeq)),
        nextDayValsNorm := some ((List.range (st.data.length - st.numSeq)).map
          (fun i => col0 (sc0.transform st.data) (i + st.numSeq))),
        nextDayVals := some ((List.range (st.data.length - st.numSeq)).map
          (fun i => col0 st.data (i + st.numSeq))) } := by
  have hne : ((List.range (st.data.length - st.numSeq)).map
      (fun i => col0 st.data (i + st.numSeq))) ≠ [] := by
    apply List.ne_nil_of_length_pos
    simpa using Nat.sub_pos_of_lt h2
  refine ⟨_, _, fit_ok st.data h1, fit1_ok _ hne, ?_⟩
  unfold Stock.prepare_samples
  rw [fit_ok st.data h1]
  simp only [transform_length, List.length_map, List.length_range,
    fit1_ok _ hne]
  exact if_pos trivial

end StockForecast

/-! ## Inversion of successful lifecycle steps -/

namespace StockForecast

theorem transform1_length (sc : Scaler) (l : List ℚ) :
    (sc.transform1 l).length = l.length := by
  simp [Scaler.transform1]

theorem prepare_samples_inv (st st₁ : Stock) (h : st.prepare_samples = .ok st₁) :
    st.data.isEmpty = false ∧ st.numSeq < st.data.length ∧
    ∃ sc0 ySc, Scaler.fit st.data = .ok sc0 ∧
      Scaler.fit1 ((List.range (st.data.length - st.numSeq)).map
        (fun i => col0 st.data (i + st.numSeq))) = .ok ySc ∧
      st₁ = { st with
        scaler := some ySc,
        normalizedData := some (sc0.transform st.data),
        normDataHistory := some ((List.range (st.data.length - st.numSeq)).map
          (fun i => pySlice (sc0.transform st.data) i st.numSeq)),
        nextDayValsNorm := some ((List.range (st.data.length - st.numSeq)).map
          (fun i => col0 (sc0.transform st.data) (i + st.numSeq))),
        nextDayVals := some ((List.range (st.data.length - st.numSeq)).map
          (fun i => col0 st.data (i + st.numSeq))) } := by
  have h1 : st.data.isEmpty = false := by
    by_cases hc : st.data.isEmpty = true
    · exfalso
      have herr : st.prepare_samples = .error PyErr.valueError := by
        unfold Stock.prepare_samples
        simp [Scaler.fit, hc]
      rw [herr] at h
      exact Except.noConfusion h
    · rw [Bool.not_eq_true] at hc
      exact hc
  have h2 : st.numSeq < st.data.length := by
    by_contra hc
    push_neg at hc
    rw [short_series_value_error st hc] at h
    exact Except.noConfusion h
  obtain ⟨sc0, ySc, hf, hf1, hps⟩ := prepare_samples_ok st h1 h2
  rw [hps] at h
  exact ⟨h1, h2, sc0, ySc, hf, hf1, (Except.ok.inj h).symm⟩

theorem prepare_indicators_inv (st st' : Stock) (h : st.prepare_indicators = .ok st') :
    ∃ hist isc, st.normDataHistory = some hist ∧
      Scaler.fit1 (hist.map (fun day => mean (colVals day 4))) = .ok isc ∧
      st' = { st with
        indicators := some (hist.map (fun day => mean (colVals day 4))),
        indicatorScaler := some isc,
        indicatorsNorm := some (isc.transform1 (hist.map (fun day => mean (colVals day 4)))) } := by
  unfold Stock.prepare_indicators at h
  cases hh : st.normDataHistory with
  | none => simp only [hh] at h; exact absurd h (by simp)
  | some hist =>
    simp only [hh] at h
    cases hfi : Scaler.fit1 (hist.map (fun day => mean (colVals day 4))) with
    | error e => simp only [hfi] at h; exact absurd h (by simp)
    | ok isc =>
      simp only [hfi] at h
      exact ⟨hist, isc, rfl, hfi, (Except.ok.inj h).symm⟩

theorem split_data_inv (st st' : Stock) (h : st.split_data = .ok st') :
    ∃ hist nyn ny, st.normDataHistory = some hist ∧ st.nextDayValsNorm = some nyn ∧
      st.nextDayVals = some ny ∧
      st' = { st with
        train_samplesX := some (pyTake hist (splitPoint hist.length st.testProp)),
        test_samplesX := some (pyDrop hist (splitPoint hist.length st.testProp)),
        train_samplesY := some (pyTake nyn (splitPoint hist.length st.testProp)),
        test_samplesY := some (pyDrop nyn (splitPoint hist.length st.testProp)),
        nextDayVals_test := some (pyDrop ny (splitPoint hist.length st.testProp)) } := by
  unfold Stock.split_data at h
  cases hh : st.normDataHistory with
  | none => simp only [hh] at h; exact absurd h (by simp)
  | some hist =>
    simp only [hh] at h
    cases hn : st.nextDayValsNorm with
    | none => simp only [hn] at h; exact absurd h (by simp)
    | some nyn =>
      cases hv : st.nextDayVals with
      | none => simp only [hn, hv] at h; exact absurd h (by simp)
      | some ny =>
        simp only [hn, hv] at h
        exact ⟨hist, nyn, ny, rfl, rfl, rfl, (Except.ok.inj h).symm⟩

theorem split_indicator_data_inv (st st' : Stock) (h : st.split_indicator_data = .ok st') :
    ∃ ind, st.indicatorsNorm = some ind ∧
      st' = { st with
        indicators_train := some (pyTake ind (splitPoint ind.length st.testProp)),
        indicators_test := some (pyDrop ind (splitPoint ind.length st.testProp)) } := by
  unfold Stock.split_indicator_data at h
  cases hh : st.indicatorsNorm with
  | none => simp only [hh] at h; exact absurd h (by simp)
  | some ind =>
    simp only [hh] at h
    exact ⟨ind, rfl, (Except.ok.inj h).symm⟩

end StockForecast

/-! ## C2 — shape of the windowed samples -/

namespace StockForecast

/-- C2: for every raw series of length `N` and window length `W < N`,
`prepare_samples` succeeds and produces exactly `N - W` windowed samples over
the normalized series `nd` (itself of length `N`), where sample `i` is the
contiguous slice `nd[i : i+W]` and its normalized target is the column-0
value of `nd` at index `i + W`. -/
theorem prepare_samples_window_structure (st : Stock)
    (hW : st.numSeq < st.data.length) :
    ∃ st', st.prepare_samples = .ok st' ∧
      ∃ nd hist nyn, st'.normalizedData = some nd ∧
        st'.normDataHistory = some hist ∧ st'.nextDayValsNorm = some nyn ∧
        nd.length = st.data.length ∧
        hist.length = st.data.length - st.numSeq ∧
        nyn.length = st.data.length - st.numSeq ∧
        ∀ i, i < st.data.length - st.numSeq →
          hist.getD i [] = (nd.drop i).take st.numSeq ∧
          nyn.getD i 0 = (nd.getD (i + st.numSeq) []).getD 0 0 := by
  obtain ⟨sc0, ySc, hf, hf1, hps⟩ := prepare_samples_ok st
    (isEmpty_false_of_len_pos _ (Nat.lt_of_le_of_lt (Nat.zero_le _) hW)) hW
  refine ⟨_, hps, sc0.transform st.data, _, _, rfl, rfl, rfl,
    transform_length .., by simp, by simp, ?_⟩
  intro i hi
  constructor
  · rw [rangeMap_getD _ _ _ _ hi]
    rfl
  · rw [rangeMap_getD _ _ _ _ hi]
    rfl

/-- C2 witness: the structural theorem applied to the six-day demo series
with window length 1. -/
theorem prepare_samples_window_witness :
    ∃ st', demoStock.prepare_samples = .ok st' ∧
      ∃ nd hist nyn, st'.normalizedData = some nd ∧
        st'.normDataHistory = some hist ∧ st'.nextDayValsNorm = some nyn ∧
        nd.length = demoStock.data.length ∧
        hist.length = demoStock.data.length - demoStock.numSeq ∧
        nyn.length = demoStock.data.length - demoStock.numSeq ∧
        ∀ i, i < demoStock.data.length - demoStock.numSeq →
          hist.getD i [] = (nd.drop i).take demoStock.numSeq ∧
          nyn.getD i 0 = (nd.getD (i + demoStock.numSeq) []).getD 0 0 :=
  prepare_samples_window_structure demoStock (by with_unfolding_all decide)

end StockForecast

/-! ## C8 — determinism of `prepare_samples` -/

namespace StockForecast

/-- C8: `prepare_samples` reads only the loaded raw series and the window
length, both of which it leaves untouched, so a second call without an
intervening load succeeds and reproduces the first call's windowed samples,
normalized and raw targets, normalized series and fitted scaler exactly. -/
theorem prepare_samples_idempotent (st st₁ : Stock)
    (h : st.prepare_samples = .ok st₁) :
    ∃ st₂, st₁.prepare_samples = .ok st₂ ∧
      st₂.normDataHistory = st₁.normDataHistory ∧
      st₂.nextDayValsNorm = st₁.nextDayValsNorm ∧
      st₂.nextDayVals = st₁.nextDayVals ∧
      st₂.normalizedData = st₁.normalizedData ∧
      st₂.scaler = st₁.scaler := by
  obtain ⟨h1, h2, sc0, ySc, hf, hf1, hrec⟩ := prepare_samples_inv st st₁ h
  have hd : st₁.data = st.data := by rw [hrec]
  have hnq : st₁.numSeq = st.numSeq := by rw [hrec]
  obtain ⟨sc0', ySc', hf', hf1', hps'⟩ := prepare_samples_ok st₁
    (by rw [hd]; exact h1) (by rw [hd, hnq]; exact h2)
  rw [hd] at hf'
  rw [hf] at hf'
  obtain rfl := Except.ok.inj hf'
  rw [hd, hnq] at hf1'
  rw [hf1] at hf1'
  obtain rfl := Except.ok.inj hf1'
  refine ⟨_, hps', ?_, ?_, ?_, ?_, ?_⟩ <;> rw [hrec]

/-- C8 witness: idempotence applied to the demo run. -/
theorem prepare_samples_idempotent_witness :
    ∃ st₂, demoS1.prepare_samples = .ok st₂ ∧
      st₂.normDataHistory = demoS1.normDataHistory ∧
      st₂.nextDayValsNorm = demoS1.nextDayValsNorm ∧
      st₂.nextDayVals = demoS1.nextDayVals ∧
      st₂.normalizedData = demoS1.normalizedData ∧
      st₂.scaler = demoS1.scaler :=
  prepare_samples_idempotent demoStock demoS1 (by with_unfolding_all rfl)

end StockForecast

/-! ## C7 — normalizers are fitted on the full series before the split -/

namespace StockForecast

/-- C7: the min-max normalizer applied to the windowed numeric samples is the
one fitted by `prepare_samples` on the entire raw series (every row,
including the rows whose windows `split_data` later assigns to the test
partition), the indicator normalizer is fitted by `prepare_indicators` over
all indicator values, and `split_data` — which runs afterwards — changes
neither the normalized data nor any fitted scaler. -/
theorem normalizers_fit_on_full_series (st st₁ st₂ st₃ : Stock)
    (h1 : st.prepare_samples = .ok st₁)
    (h2 : st₁.prepare_indicators = .ok st₂)
    (h3 : st₂.split_data = .ok st₃) :
    (∃ sc0, Scaler.fit st.data = .ok sc0 ∧
      st₁.normalizedData = some (sc0.transform st.data)) ∧
    (∃ ind isc, st₂.indicators = some ind ∧ Scaler.fit1 ind = .ok isc ∧
      st₂.indicatorsNorm = some (isc.transform1 ind)) ∧
    st₃.normalizedData = st₂.normalizedData ∧
    st₃.scaler = st₂.scaler ∧
    st₃.indicatorsNorm = st₂.indicatorsNorm ∧
    st₃.indicatorScaler = st₂.indicatorScaler := by
  obtain ⟨h1e, h2e, sc0, ySc, hf, hf1, hrec1⟩ := prepare_samples_inv st st₁ h1
  obtain ⟨hist, isc, hh, hfi, hrec2⟩ := prepare_indicators_inv st₁ st₂ h2
  obtain ⟨hist2, nyn, ny, hh2, hn2, hv2, hrec3⟩ := split_data_inv st₂ st₃ h3
  refine ⟨⟨sc0, hf, ?_⟩, ⟨hist.map (fun day => mean (colVals day 4)), isc, ?_, hfi, ?_⟩,
          ?_, ?_, ?_, ?_⟩
  · rw [hrec1]
  · rw [hrec2]
  · rw [hrec2]
  · rw [hrec3]
  · rw [hrec3]
  · rw [hrec3]
  · rw [hrec3]

/-- C7 witness: the theorem applied to the demo chain
`demoStock → demoS1 → demoS2 → demoS3`. -/
theorem normalizers_full_series_witness :
    (∃ sc0, Scaler.fit demoStock.data = .ok sc0 ∧
      demoS1.normalizedData = some (sc0.transform demoStock.data)) ∧
    (∃ ind isc, demoS2.indicators = some ind ∧ Scaler.fit1 ind = .ok isc ∧
      demoS2.indicatorsNorm = some (isc.transform1 ind)) ∧
    demoS3.normalizedData = demoS2.normalizedData ∧
    demoS3.scaler = demoS2.scaler ∧
    demoS3.indicatorsNorm = demoS2.indicatorsNorm ∧
    demoS3.indicatorScaler = demoS2.indicatorScaler :=
  normalizers_fit_on_full_series demoStock demoS1 demoS2 demoS3
    (by with_unfolding_all rfl) (by with_unfolding_all rfl) (by with_unfolding_all rfl)

end StockForecast

/-! ## C10 — alignment of sample and indicator splits -/

namespace StockForecast

/-- C10: after `prepare_samples`, `prepare_indicators`, `split_data` and
`split_indicator_data` run in order, there is exactly one indicator per
windowed sample, both splits compute the same split index from the same
test proportion, and therefore the indicator train and test partitions have
exactly the lengths of the sample train and test partitions. -/
theorem indicator_split_alignment (st st₁ st₂ st₃ st₄ : Stock)
    (h1 : st.prepare_samples = .ok st₁)
    (h2 : st₁.prepare_indicators = .ok st₂)
    (h3 : st₂.split_data = .ok st₃)
    (h4 : st₃.split_indicator_data = .ok st₄) :
    ∃ hist ind trX teX trI teI,
      st₂.normDataHistory = some hist ∧ st₂.indicators = some ind ∧
      ind.length = hist.length ∧
      st₄.train_samplesX = some trX ∧ st₄.test_samplesX = some teX ∧
      st₄.indicators_train = some trI ∧ st₄.indicators_test = some teI ∧
      trI.length = trX.length ∧ teI.length = teX.length := by
  obtain ⟨h1e, h2e, sc0, ySc, hf, hf1, hrec1⟩ := prepare_samples_inv st st₁ h1
  obtain ⟨hist, isc, hh, hfi, hrec2⟩ := prepare_indicators_inv st₁ st₂ h2
  obtain ⟨hist2, nyn, ny, hh2, hn2, hv2, hrec3⟩ := split_data_inv st₂ st₃ h3
  obtain ⟨indN, hiN, hrec4⟩ := split_indicator_data_inv st₃ st₄ h4
  have hh' : st₂.normDataHistory = some hist := by rw [hrec2]; exact hh
  have heq : hist = hist2 := by
    rw [hh'] at hh2
    exact Option.some.inj hh2
  subst heq
  have hiN' : st₃.indicatorsNorm =
      some (isc.transform1 (hist.map (fun day => mean (colVals day 4)))) := by
    rw [hrec3, hrec2]
  have heqN : isc.transform1 (hist.map (fun day => mean (colVals day 4))) = indN := by
    rw [hiN'] at hiN
    exact Option.some.inj hiN
  subst heqN
  have hlen : (isc.transform1 (hist.map (fun day => mean (colVals day 4)))).length =
      hist.length := by
    rw [transform1_length, List.length_map]
  have hprop : st₃.testProp = st₂.testProp := by rw [hrec3]
  refine ⟨hist, hist.map (fun day => mean (colVals day 4)), _, _, _, _,
    hh', by rw [hrec2], by rw [List.length_map],
    by rw [hrec4, hrec3], by rw [hrec4, hrec3], by rw [hrec4], by rw [hrec4],
    ?_, ?_⟩
  · rw [hlen, hprop]
    exact pyTake_length_congr _ _ _ hlen
  · rw [hlen, hprop]
    exact pyDrop_length_congr _ _ _ hlen

/-- C10 witness: the alignment theorem applied to the demo chain. -/
theorem indicator_split_alignment_witness :
    ∃ hist ind trX teX trI teI,
      demoS2.normDataHistory = some hist ∧ demoS2.indicators = some ind ∧
      ind.length = hist.length ∧
      demoS4.train_samplesX = some trX ∧ demoS4.test_samplesX = some teX ∧
      demoS4.indicators_train = some trI ∧ demoS4.indicators_test = some teI ∧
      trI.length = trX.length ∧ teI.length = teX.length :=
  indicator_split_alignment demoStock demoS1 demoS2 demoS3 demoS4
    (by with_unfolding_all rfl) (by with_unfolding_all rfl)
    (by with_unfolding_all rfl) (by with_unfolding_all rfl)

end StockForecast

/-! ## C6 and C9 — the evaluation step never reports its metrics -/

namespace StockForecast

/-- C6 (code bug at the failing input): on the demo instance taken through
the full lifecycle — `prepare_samples`, `prepare_indicators`, `split_data`,
`split_indicator_data`, `fit_LSTM` — the model is trained, yet
`evaluate_forecasts` terminates with `TypeError` (raised by
`print("MSE Score: " + MSE_scaled)`, a string concatenated with a number)
and never returns a result, so the computed metrics are lost and no
`ForecastResult` ever exists. -/
theorem evaluate_crashes_with_type_error :
    demoS5.model.isSome = true ∧
    demoS5.evaluate_forecasts = .error PyErr.typeError ∧
    ∀ u, demoS5.evaluate_forecasts ≠ .ok u := by
  refine ⟨by with_unfolding_all rfl, by with_unfolding_all rfl, ?_⟩
  intro u hcontra
  rw [show demoS5.evaluate_forecasts = .error PyErr.typeError from by
    with_unfolding_all rfl] at hcontra
  simp at hcontra

/-- C9 (amended): on every trained instance whose test partition is nonempty
(with the engine inputs and fitted scaler in place, as after the normal
lifecycle), `evaluate_forecasts` raises `TypeError` when reporting the
mean-squared error, so the computed metrics are never successfully reported
or returned; on an empty test partition it instead raises `ValueError`
before reaching that statement. -/
theorem evaluate_after_training_type_error (st : Stock) (f : EngineFn)
    (tX : List Window) (tI : List ℚ) (sc : Scaler) (actual : List ℚ)
    (hm : st.model = some f) (hx : st.test_samplesX = some tX)
    (hi : st.indicators_test = some tI) (hs : st.scaler = some sc)
    (ha : st.nextDayVals_test = some actual)
    (hxne : tX ≠ []) (hine : tI ≠ []) (hane : actual ≠ []) :
    st.evaluate_forecasts = .error PyErr.typeError ∧
    ∀ u, st.evaluate_forecasts ≠ .ok u := by
  have hpne : ((tX.zip tI).map (fun p => f p.1 p.2)).isEmpty = false := by
    cases tX with
    | nil => exact absurd rfl hxne
    | cons a t =>
      cases tI with
      | nil => exact absurd rfl hine
      | cons b u => rfl
  have hane' : actual.isEmpty = false := by
    cases actual with
    | nil => exact absurd rfl hane
    | cons a t => rfl
  have hmain : st.evaluate_forecasts = .error PyErr.typeError := by
    unfold Stock.evaluate_forecasts
    simp only [hm, hx, hi, hs, ha, hpne, hane']
    simp
  refine ⟨hmain, ?_⟩
  intro u hcontra
  rw [hmain] at hcontra
  simp at hcontra

def trainedStock : Stock :=
  { data := [], model := some demoEngine,
    test_samplesX := some [[[0, 0, 0, 0, 0]]],
    indicators_test := some [0], scaler := some ⟨[0], [1]⟩,
    nextDayVals_test := some [1] }

/-- C9 witness: the amended theorem applied to a concrete trained state with
a one-sample test partition. -/
theorem evaluate_type_error_witness :
    trainedStock.evaluate_forecasts = .error PyErr.typeError ∧
    ∀ u, trainedStock.evaluate_forecasts ≠ .ok u :=
  evaluate_after_training_type_error trainedStock demoEngine
    [[[0, 0, 0, 0, 0]]] [0] ⟨[0], [1]⟩ [1]
    rfl rfl rfl rfl rfl (by simp) (by simp) (by simp)

def tinyStock : Stock :=
  (Stock.init ((List.range 4).map (fun i => List.replicate 5 (i : ℚ)))).set_globals
    (1/5) 32 1 1 1

def tinyS1 : Stock := orInit tinyStock.prepare_samples

def tinyS2 : Stock := orInit tinyS1.prepare_indicators

def tinyS3 : Stock := orInit tinyS2.split_data

def tinyS4 : Stock := orInit tinyS3.split_indicator_data

def tinyS5 : Stock := orInit (Stock.fit_LSTM demoEngine tinyS4)

/-- C9 counterexample: a four-day series with `testProp = 1/5` yields three
windowed samples and an empty test partition (`int(3 * 0.2) = 0`); the
instance trains, but `evaluate_forecasts` then raises `ValueError` (empty
array reaching sklearn's `inverse_transform` / `np.max`), not the claimed
`TypeError`, so the claim fails on this trained instance. -/
theorem evaluate_empty_test_cex :
    tinyS5.model.isSome = true ∧
    tinyS5.test_samplesX = some [] ∧
    tinyS5.evaluate_forecasts = .error PyErr.valueError ∧
    tinyS5.evaluate_forecasts ≠ .error PyErr.typeError := by
  refine ⟨by with_unfolding_all rfl, by with_unfolding_all rfl,
          by with_unfolding_all rfl, ?_⟩
  intro hcontra
  rw [show tinyS5.evaluate_forecasts = .error PyErr.valueError from by
    with_unfolding_all rfl] at hcontra
  simp at hcontra

end StockForecast
